import Mathlib

/-!
# Verification of the Visibility astronomy helper scripts

Shallow embedding of the three scripts of the repository:

* `w1m_noise.py` — a closed-form photometric noise-budget formula
  (`get_aperture_noise`).  Python floats are modelled by exact rationals `ℚ`
  for the inputs and branch selection, and by real numbers `ℝ` for the
  transcendental arithmetic (`sqrt`, `exp`, `pi`, powers with real exponents).
* `bp_lookup.py` — the Gaia magnitude resolver (`get_bp_mag`).  The two
  remote services (Simbad name resolution, Gaia catalog query) are abstract
  oracles `String → Except Unit _`; an `Except.error` models a raised Python
  exception.  The run is instrumented with an explicit state carrying the
  current `sys.stdout` sink and the list of network calls, each tagged with
  the sink in effect when it was issued, so that the output-suppression and
  no-network-call properties are statable.
* `const_add.py` — the FITS constant-offset batch script (`const_add`).  The
  filesystem is a map from path strings to optional FITS files.

Python string primitives (`in`, `split`, `replace`, `strip`) are embedded as
executable structurally-recursive functions over `List Char` so that concrete
runs evaluate inside the kernel.
-/

namespace Visibility

/-! ## Python string primitives -/

/-- Python `sub in s` on character lists: `sub` occurs as a contiguous
sublist of `l`. -/
def containsSub (sub : List Char) : List Char → Bool
  | [] => sub.isEmpty
  | c :: rest => sub.isPrefixOf (c :: rest) || containsSub sub rest

/-- Worker for `pySplit`: fuel-driven scan; at each position either the
separator matches (close the current piece, skip the separator) or one
character is moved into the accumulator.  The fuel is the length of the
scanned list, so the fuel-exhausted branch is never reached for a nonempty
separator. -/
def splitOnGo (sep : List Char) : Nat → List Char → List Char → List (List Char)
  | _, acc, [] => [acc.reverse]
  | 0, acc, l => [acc.reverse ++ l]
  | fuel + 1, acc, c :: rest =>
    if sep.isPrefixOf (c :: rest) then
      acc.reverse :: splitOnGo sep fuel [] (List.drop (sep.length - 1) rest)
    else
      splitOnGo sep fuel (c :: acc) rest

/-- Python `s.split(sep)` for a nonempty separator: split at successive
leftmost non-overlapping occurrences of `sep`. -/
def pySplit (s sep : String) : List String :=
  (splitOnGo sep.data s.data.length [] s.data).map String.mk

/-- Worker for `pyReplace`, fuel-driven like `splitOnGo`. -/
def replaceGo (old new : List Char) : Nat → List Char → List Char
  | _, [] => []
  | 0, l => l
  | fuel + 1, c :: rest =>
    if old.isPrefixOf (c :: rest) then
      new ++ replaceGo old new fuel (List.drop (old.length - 1) rest)
    else
      c :: replaceGo old new fuel rest

/-- Python `s.replace(old, new)` for a nonempty `old`. -/
def pyReplace (s old new : String) : String :=
  String.mk (replaceGo old.data new.data s.data.length s.data)

/-- Python `sub in s` on strings. -/
def pyContains (s sub : String) : Bool := containsSub sub.data s.data

/-- Python `s.strip()`: drop leading and trailing whitespace. -/
def pyStrip (s : String) : String :=
  String.mk (((s.data.dropWhile Char.isWhitespace).reverse.dropWhile
    Char.isWhitespace).reverse)

/-! ## `w1m_noise.py` — module-level instrument constants -/

def plate_scale : ℚ := 0.778

def gain : ℚ := 1.055

def read_noise_electrons : ℚ := 12.96

def dark_current : ℚ := 0.0243

def low_sky_background : ℚ := 16

def med_sky_background : ℚ := 100

def high_sky_background : ℚ := 300

def telescope_aperture : ℚ := 1

def scale_height : ℚ := 8000

def C_Y : ℚ := 1.3

def h_obs : ℚ := 2396

def twenty_px_zp : ℚ := 24.3

def ten_px_zp : ℚ := 24

def five_px_zp : ℚ := 23.7

def read_out_time : ℚ := 0.993

/-! ## `w1m_noise.py` — `get_aperture_noise` -/

/-- The first `if/elif/else` chain of `get_aperture_noise`: select
`(aperture_size, zp)` from the magnitude. -/
def select_aperture_zp (bp_mag : ℚ) : ℚ × ℚ :=
  if bp_mag < 14 then (20, twenty_px_zp)
  else if bp_mag < 18 then (10, ten_px_zp)
  else (5, five_px_zp)

/-- The second `if/elif/else` chain of `get_aperture_noise`: select the sky
background rate from the moon illumination percentage. -/
def select_sky_background (moon_percentage : ℚ) : ℚ :=
  if moon_percentage < 25 then low_sky_background
  else if moon_percentage < 75 then med_sky_background
  else high_sky_background

/-- Python: `n_pixels = np.pi * aperture_size ** 2` -/
noncomputable def n_pixels (aperture_size : ℚ) : ℝ :=
  Real.pi * (aperture_size : ℝ) ^ 2

/-- Python: `read_noise = read_noise_electrons * np.sqrt(n_pixels)` -/
noncomputable def read_noise (aperture_size : ℚ) : ℝ :=
  (read_noise_electrons : ℝ) * Real.sqrt (n_pixels aperture_size)

/-- Python: `dark_noise = np.sqrt(dark_current * exposure_time * n_pixels)` -/
noncomputable def dark_noise (aperture_size exposure_time : ℚ) : ℝ :=
  Real.sqrt ((dark_current : ℝ) * (exposure_time : ℝ) * n_pixels aperture_size)

/-- Python: `signal = 10 ** ((zp - bp_mag) / 2.5) * exposure_time` -/
noncomputable def signal (zp bp_mag exposure_time : ℚ) : ℝ :=
  (10 : ℝ) ^ (((zp : ℝ) - (bp_mag : ℝ)) / 2.5) * (exposure_time : ℝ)

/-- Python: `poisson_shot_noise = np.sqrt(signal)` -/
noncomputable def poisson_shot_noise (zp bp_mag exposure_time : ℚ) : ℝ :=
  Real.sqrt (signal zp bp_mag exposure_time)

/-- Python: `sky_background_noise = np.sqrt(sky_background * plate_scale ** 2 * n_pixels * exposure_time)` -/
noncomputable def sky_background_noise (sky_background aperture_size exposure_time : ℚ) : ℝ :=
  Real.sqrt ((sky_background : ℝ) * (plate_scale : ℝ) ^ 2 *
    n_pixels aperture_size * (exposure_time : ℝ))

/-- Python: `scintillation_noise = np.sqrt(1e-5 * C_Y**2 * telescope_aperture**(-4/3) *
mean_cube_airmass * np.exp(-2*h_obs/scale_height) / exposure_time) * signal` -/
noncomputable def scintillation_noise (mean_cube_airmass zp bp_mag exposure_time : ℚ) : ℝ :=
  Real.sqrt (1e-5 * (C_Y : ℝ) ^ 2 * (telescope_aperture : ℝ) ^ ((-4 : ℝ) / 3) *
      (mean_cube_airmass : ℝ) *
      Real.exp (-2 * (h_obs : ℝ) / (scale_height : ℝ)) / (exposure_time : ℝ)) *
    signal zp bp_mag exposure_time

/-- Python: `total_noise = np.sqrt(read_noise**2 + dark_noise**2 + poisson_shot_noise**2 +
sky_background_noise**2 + scintillation_noise**2)` -/
noncomputable def total_noise (sky_background zp aperture_size mean_cube_airmass bp_mag exposure_time : ℚ) : ℝ :=
  Real.sqrt (read_noise aperture_size ^ 2 +
    dark_noise aperture_size exposure_time ^ 2 +
    poisson_shot_noise zp bp_mag exposure_time ^ 2 +
    sky_background_noise sky_background aperture_size exposure_time ^ 2 +
    scintillation_noise mean_cube_airmass zp bp_mag exposure_time ^ 2)

/-- The noise formula applied to an already selected sky background,
zero-point and aperture size: the arithmetic tail of `get_aperture_noise`
after the two branch selections. -/
noncomputable def noise_formula (sky_background zp aperture_size mean_cube_airmass bp_mag exposure_time : ℚ) : ℝ :=
  (total_noise sky_background zp aperture_size mean_cube_airmass bp_mag exposure_time /
      signal zp bp_mag exposure_time) *
    Real.sqrt (((exposure_time : ℝ) + (read_out_time : ℝ)) / 3600) * 1e6

/-- Python: `get_aperture_noise(moon_percentage, mean_cube_airmass, bp_mag, exposure_time=30)`:
the two branch selections followed by the quadrature noise formula. -/
noncomputable def get_aperture_noise (moon_percentage mean_cube_airmass bp_mag : ℚ)
    (exposure_time : ℚ := 30) : ℝ :=
  noise_formula (select_sky_background moon_percentage)
    (select_aperture_zp bp_mag).2 (select_aperture_zp bp_mag).1
    mean_cube_airmass bp_mag exposure_time

/-! ## `bp_lookup.py` — the Gaia magnitude resolver -/

/-- The value of `sys.stdout`: either the normal standard output of the process or
the discard sink `os.devnull` opened by `suppress_stdout`. -/
inductive Sink where
  | normal : Sink
  | devnull : Sink
deriving DecidableEq

/-- A network round-trip issued during a run, tagged with the `sys.stdout`
sink in effect at the moment of the call. -/
inductive NetCall where
  | simbad (sink : Sink) (target : String) : NetCall
  | gaia (sink : Sink) (query : String) : NetCall
deriving DecidableEq

/-- The sink a network call was issued under. -/
def NetCall.sinkOf : NetCall → Sink
  | .simbad s _ => s
  | .gaia s _ => s

/-- Whether a network call is a Gaia catalog query (as opposed to a Simbad
name-resolution query). -/
def NetCall.isGaia : NetCall → Bool
  | .simbad _ _ => false
  | .gaia _ _ => true

/-- Observable state threaded through a resolver run: the current
`sys.stdout` sink and the network calls issued so far (in order). -/
structure RunState where
  sink : Sink
  calls : List NetCall
deriving DecidableEq

/-- The initial state of a run: normal stdout, no calls issued. -/
def init_state : RunState := { sink := Sink.normal, calls := [] }

/-- A stateful, possibly-raising computation: explicit state passing with
`Except.error ()` standing for a raised Python exception.  An exception
leaves the state (in particular the call trace and the sink) intact, as in
Python. -/
def Eff (α : Type) : Type := RunState → Except Unit α × RunState

/-- The `suppress_stdout` context manager of `bp_lookup.py`:
save `sys.stdout`, set it to the discard sink, run the body, and restore the
saved value in a `finally` block — so restoration happens whether the body
returns normally or raises. -/
def suppress_stdout (body : Eff α) : Eff α := fun s =>
  let old_stdout := s.sink
  let (r, s1) := body { s with sink := Sink.devnull }
  (r, { s1 with sink := old_stdout })

/-- The Simbad side of the resolver as an oracle call:
`custom_simbad.query_object(target)` followed by `str(result["ids"])`.
The oracle returns the string form of the `ids` column, or an error for any
raised exception (network failure, object not found making `result` `None`,
missing field).  The call is recorded in the trace with the current sink. -/
def callSimbad (simbad : String → Except Unit String) (target : String) : Eff String :=
  fun s => (simbad target, { s with calls := s.calls ++ [NetCall.simbad s.sink target] })

/-- The Gaia side of the resolver as an oracle call:
`Gaia.launch_job_async(query)` followed by `job.get_results()` and the
extraction of the `phot_bp_mean_mag` column as a list of row values.  The
oracle returns the column, or an error for any raised exception (network
failure, invalid ADQL, job failure).  The call is recorded in the trace with
the current sink. -/
def callGaia (gaia : String → Except Unit (List ℚ)) (query : String) : Eff (List ℚ) :=
  fun s => (gaia query, { s with calls := s.calls ++ [NetCall.gaia s.sink query] })

/-- The catalog-native marker substring. -/
def gaiaMarker : String := "Gaia DR3"

/-- Python: `target.split("Gaia DR3")[1].strip()` — the id extraction used by both
the fast path and the matched-alternate-identifier path.  The `[1]` index is
written `getD 1 ""` ; in the source it is always guarded by a
`"Gaia DR3" in _` test, under which the split has at least two pieces. -/
def extract_gaia_id (s : String) : String :=
  pyStrip ((pySplit s gaiaMarker).getD 1 "")

/-- Python: `str(result["ids"]).replace("\n", "").replace("-", "").split("|")` -/
def parse_ids (idsStr : String) : List String :=
  pySplit (pyReplace (pyReplace idsStr "\n" "") "-" "") "|"

/-- The `for id in ids` loop: scan for the first entry containing the
marker; on a hit, extract the id and `break`.  `none` models the loop
falling through with `gaia_id` still `None`. -/
def find_gaia_id (ids : List String) : Option String :=
  match ids.find? (fun id => pyContains id gaiaMarker) with
  | some id => some (extract_gaia_id id)
  | none => none

/-- The ADQL f-string of `get_bp_mag`; Python renders `None` as the literal
text `None` when `gaia_id` was never assigned a match. -/
def mk_query (gaia_id : Option String) : String :=
  "\n        SELECT source_id, phot_bp_mean_mag\n        FROM gaiadr3.gaia_source\n        WHERE source_id = " ++
    (match gaia_id with
      | some g => g
      | none => "None") ++
    "\n        "

/-- The body of the `try` block of `get_bp_mag`, instrumented: resolve a Gaia id
(via Simbad when the target does not contain the marker, else the fast
path), build the ADQL query, run it under `suppress_stdout`, and index row 0
of the result column (an empty column raising `IndexError` is the
`Except.error` in the last match). -/
def get_bp_mag_run (simbad : String → Except Unit String)
    (gaia : String → Except Unit (List ℚ)) (target : String) :
    RunState → Except Unit ℚ × RunState := fun s =>
  let step1 : Except Unit (Option String) × RunState :=
    if !(pyContains target gaiaMarker) then
      match callSimbad simbad target s with
      | (Except.ok idsStr, s') => (Except.ok (find_gaia_id (parse_ids idsStr)), s')
      | (Except.error e, s') => (Except.error e, s')
    else
      (Except.ok (some (extract_gaia_id target)), s)
  match step1 with
  | (Except.error e, s1) => (Except.error e, s1)
  | (Except.ok gaia_id, s1) =>
    let query := mk_query gaia_id
    match suppress_stdout (callGaia gaia query) s1 with
    | (Except.error e, s2) => (Except.error e, s2)
    | (Except.ok mags, s2) =>
      match mags.head? with
      | some m => (Except.ok m, s2)
      | none => (Except.error (), s2)

/-- Python: `get_bp_mag(target)` — the `try` body run from the initial state, with
the `except Exception: return None` collapse of every raised exception to
`None`. -/
def get_bp_mag (simbad : String → Except Unit String)
    (gaia : String → Except Unit (List ℚ)) (target : String) : Option ℚ :=
  match (get_bp_mag_run simbad gaia target init_state).1 with
  | Except.ok m => some m
  | Except.error _ => none

/-- Modelled from the spec (for the refinement claim about the fast path):
"extract exactly the substring after the marker, trimmed of surrounding
whitespace" — everything after the first occurrence of the marker, then
trimmed.  Rejoining all split pieces past the first with the marker yields
exactly the suffix following the first occurrence. -/
def spec_extract_gaia_id (s : String) : String :=
  pyStrip (String.intercalate gaiaMarker ((pySplit s gaiaMarker).drop 1))

/-! ## `const_add.py` — the FITS constant-offset script -/

/-- A FITS primary HDU as the script sees it: a 2-D numeric data array
(numeric values modelled by exact rationals) and a key–value metadata
header. -/
structure FitsFile where
  data : List (List ℚ)
  header : List (String × String)

/-- Python: `data += 100` — add a constant to every element of the 2-D array. -/
def add_const (c : ℚ) (d : List (List ℚ)) : List (List ℚ) :=
  d.map (fun row => row.map (fun x => x + c))

/-- Python: `Path(...).parent` — the path up to (excluding) the last `/` component. -/
def parentDir (p : String) : String :=
  String.intercalate "/" ((pySplit p "/").dropLast)

/-- Python: `parent / name` — join a directory and a file name with `/`. -/
def joinPath (d name : String) : String := d ++ "/" ++ name

/-- The hardcoded input path of `const_add.py`. -/
def input_path : String := "/Users/nagro/Documents/median.fits"

/-- Python: `output_path = input_path.parent / "const_added.fits"` -/
def output_path : String := joinPath (parentDir input_path) "const_added.fits"

/-- The whole `const_add.py` script as a filesystem transformer: open the
input (raising — `Except.error` — when it is missing), add 100 to the
primary data array, and write the result to `output_path` with
`overwrite=True`, leaving every other path untouched. -/
def const_add (fs : String → Option FitsFile) : Except Unit (String → Option FitsFile) :=
  match fs input_path with
  | none => Except.error ()
  | some hdu0 =>
    Except.ok (fun p =>
      if p = output_path then some { data := add_const 100 hdu0.data, header := hdu0.header }
      else fs p)

/-! ## Sample oracles used by witnesses and counterexamples -/

/-- A Simbad oracle answering every query with a Vega-like `ids` column
(pipe-delimited alternate identifiers, one of them a Gaia DR3 entry). -/
def simbad_vega : String → Except Unit String := fun _ =>
  Except.ok "    ids    |2MASS J18365633+3847012|Gaia DR3 2091696345237363072|HD 172167"

/-- A Simbad oracle whose `ids` column contains no Gaia DR3 entry. -/
def simbad_nomatch : String → Except Unit String := fun _ =>
  Except.ok "    ids    |HD 172167|HR 7001"

/-- A Simbad oracle that always raises (network failure / object not found). -/
def simbad_err : String → Except Unit String := fun _ => Except.error ()

/-- A Gaia oracle answering every query with a single-row magnitude column. -/
def gaia_ok : String → Except Unit (List ℚ) := fun _ => Except.ok [125 / 10]

/-- A Gaia oracle answering every query with an empty result column. -/
def gaia_empty : String → Except Unit (List ℚ) := fun _ => Except.ok []

/-- A Gaia oracle that always raises. -/
def gaia_err : String → Except Unit (List ℚ) := fun _ => Except.error ()

/-! ## Run-shape lemmas for the resolver -/

/-- What the tail of `get_bp_mag_run` does with the answer of the Gaia oracle:
propagate an exception, index row 0, raise on an empty column. -/
def gaia_step : Except Unit (List ℚ) → Except Unit ℚ
  | Except.error e => Except.error e
  | Except.ok mags =>
    match mags.head? with
    | some m => Except.ok m
    | none => Except.error ()

theorem suppress_callGaia (g : String → Except Unit (List ℚ)) (q : String) (s : RunState) :
    suppress_stdout (callGaia g q) s =
      (g q, { sink := s.sink, calls := s.calls ++ [NetCall.gaia Sink.devnull q] }) := rfl

/-- Fast path: when the target already contains the marker, the run issues a
single Gaia call (under the discard sink) with the directly extracted id,
never consults Simbad, and restores the entry sink. -/
theorem run_fast (sb : String → Except Unit String) (g : String → Except Unit (List ℚ))
    (target : String) (s : RunState) (h : pyContains target gaiaMarker = true) :
    get_bp_mag_run sb g target s =
      (gaia_step (g (mk_query (some (extract_gaia_id target)))),
       { sink := s.sink,
         calls := s.calls ++
           [NetCall.gaia Sink.devnull (mk_query (some (extract_gaia_id target)))] }) := by
  unfold get_bp_mag_run
  simp only [h, Bool.not_true, Bool.false_eq_true, if_false]
  rw [suppress_callGaia]
  cases hg : g (mk_query (some (extract_gaia_id target))) with
  | error e => simp [gaia_step]
  | ok mags =>
    cases hm : mags.head? with
    | some m => simp [gaia_step, hm]
    | none => simp [gaia_step, hm]

/-- Slow path, Simbad raising: the run issues a single Simbad call under the
entry sink and propagates the exception. -/
theorem run_slow_err (sb : String → Except Unit String) (g : String → Except Unit (List ℚ))
    (target : String) (s : RunState) (h : pyContains target gaiaMarker = false)
    (hsb : sb target = Except.error ()) :
    get_bp_mag_run sb g target s =
      (Except.error (),
       { sink := s.sink, calls := s.calls ++ [NetCall.simbad s.sink target] }) := by
  unfold get_bp_mag_run callSimbad
  simp only [h, Bool.not_false, if_true, hsb]

/-- Slow path, Simbad answering: the run issues the Simbad call under the
entry sink, then the Gaia call under the discard sink with the id found in
the parsed alternate-identifier list, and restores the entry sink. -/
theorem run_slow_ok (sb : String → Except Unit String) (g : String → Except Unit (List ℚ))
    (target idsStr : String) (s : RunState) (h : pyContains target gaiaMarker = false)
    (hsb : sb target = Except.ok idsStr) :
    get_bp_mag_run sb g target s =
      (gaia_step (g (mk_query (find_gaia_id (parse_ids idsStr)))),
       { sink := s.sink,
         calls := s.calls ++
           [NetCall.simbad s.sink target,
            NetCall.gaia Sink.devnull (mk_query (find_gaia_id (parse_ids idsStr)))] }) := by
  unfold get_bp_mag_run callSimbad
  simp only [h, Bool.not_false, if_true, hsb]
  rw [suppress_callGaia]
  cases hg : g (mk_query (find_gaia_id (parse_ids idsStr))) with
  | error e => simp [gaia_step]
  | ok mags =>
    cases hm : mags.head? with
    | some m => simp [gaia_step, hm]
    | none => simp [gaia_step, hm]

/-! ## Positivity helpers for the noise formula -/

theorem aperture_size_pos (m : ℚ) : 0 < (select_aperture_zp m).1 := by
  unfold select_aperture_zp
  split_ifs <;> norm_num

theorem n_pixels_pos (a : ℚ) (ha : 0 < a) : 0 < n_pixels a := by
  unfold n_pixels
  have h : (0 : ℝ) < (a : ℝ) := by exact_mod_cast ha
  exact mul_pos Real.pi_pos (pow_pos h 2)

theorem read_noise_pos (a : ℚ) (ha : 0 < a) : 0 < read_noise a := by
  unfold read_noise read_noise_electrons
  exact mul_pos (by norm_num) (Real.sqrt_pos.mpr (n_pixels_pos a ha))

theorem signal_pos (zp m t : ℚ) (ht : 0 < t) : 0 < signal zp m t := by
  unfold signal
  exact mul_pos (Real.rpow_pos_of_pos (by norm_num) _) (by exact_mod_cast ht)

theorem total_noise_pos (sky zp a am m t : ℚ) (ha : 0 < a) :
    0 < total_noise sky zp a am m t := by
  unfold total_noise
  apply Real.sqrt_pos.mpr
  have h1 : 0 < read_noise a ^ 2 := pow_pos (read_noise_pos a ha) 2
  have h2 : 0 ≤ dark_noise a t ^ 2 := sq_nonneg _
  have h3 : 0 ≤ poisson_shot_noise zp m t ^ 2 := sq_nonneg _
  have h4 : 0 ≤ sky_background_noise sky a t ^ 2 := sq_nonneg _
  have h5 : 0 ≤ scintillation_noise am zp m t ^ 2 := sq_nonneg _
  linarith

/-! ## Claims about the noise estimator -/

/-- Claim C5 (confirmed): the aperture / zero-point selection of
`get_aperture_noise` switches exactly at the magnitude bounds — strictly
below 14 the 20-pixel aperture with zero-point `twenty_px_zp`, on `[14, 18)`
(the value 14 included) the 10-pixel aperture with zero-point `ten_px_zp`,
and from 18 up (the value 18 included) the 5-pixel aperture with zero-point
`five_px_zp`; and the estimator computes the noise formula with exactly the
selected pair. -/
theorem aperture_zp_boundaries (m : ℚ) :
    (m < 14 → select_aperture_zp m = (20, twenty_px_zp)) ∧
    (14 ≤ m → m < 18 → select_aperture_zp m = (10, ten_px_zp)) ∧
    (18 ≤ m → select_aperture_zp m = (5, five_px_zp)) ∧
    (∀ mo am t : ℚ, get_aperture_noise mo am m t =
      noise_formula (select_sky_background mo)
        (select_aperture_zp m).2 (select_aperture_zp m).1 am m t) := by
  refine ⟨fun h1 => ?_, fun h2 h3 => ?_, fun h4 => ?_, fun _ _ _ => rfl⟩
  · rw [select_aperture_zp, if_pos h1]
  · rw [select_aperture_zp, if_neg (not_lt.mpr h2), if_pos h3]
  · rw [select_aperture_zp, if_neg (not_lt.mpr (by linarith)),
      if_neg (not_lt.mpr h4)]

/-- Witness for `aperture_zp_boundaries`: the boundary inputs 13.999 / 14 /
17.999 / 18 select the constants the claim names. -/
theorem aperture_zp_boundaries_witness :
    (13.999 : ℚ) < 14 ∧ (14 : ℚ) ≤ 14 ∧ (18 : ℚ) ≤ 18 ∧
    select_aperture_zp 13.999 = (20, twenty_px_zp) ∧
    select_aperture_zp 14 = (10, ten_px_zp) ∧
    select_aperture_zp 17.999 = (10, ten_px_zp) ∧
    select_aperture_zp 18 = (5, five_px_zp) :=
  ⟨by norm_num, le_refl _, le_refl _,
   (aperture_zp_boundaries 13.999).1 (by norm_num),
   (aperture_zp_boundaries 14).2.1 (le_refl _) (by norm_num),
   (aperture_zp_boundaries 17.999).2.1 (by norm_num) (by norm_num),
   (aperture_zp_boundaries 18).2.2.1 (le_refl _)⟩

/-- Claim C1 is refuted: moon illumination exactly 75 does not select the
medium sky background — the `elif moon_percentage < 75` test fails at 75, so
the `else` branch selects the high background rate (300, not 100). -/
theorem moon_sky_selection_counterexample :
    select_sky_background 75 ≠ med_sky_background ∧
    select_sky_background 75 = high_sky_background := by
  constructor
  · rw [select_sky_background, if_neg (by norm_num), if_neg (by norm_num)]
    rw [high_sky_background, med_sky_background]
    norm_num
  · rw [select_sky_background, if_neg (by norm_num), if_neg (by norm_num)]

/-- Claim C1 as amended: the moon-illumination intervals have a closed
lower bound at 25 (so exactly 25, like 74.999, selects the medium rate)
but exactly 75 selects the high rate; `get_aperture_noise` computes the
noise formula with the so-selected rate for every airmass, magnitude and
exposure time. -/
theorem moon_sky_selection_amended :
    select_sky_background 25 = med_sky_background ∧
    select_sky_background 74.999 = med_sky_background ∧
    select_sky_background 75 = high_sky_background ∧
    (∀ am m t : ℚ,
      get_aperture_noise 25 am m t =
        noise_formula med_sky_background
          (select_aperture_zp m).2 (select_aperture_zp m).1 am m t ∧
      get_aperture_noise 75 am m t =
        noise_formula high_sky_background
          (select_aperture_zp m).2 (select_aperture_zp m).1 am m t) := by
  have h25 : select_sky_background 25 = med_sky_background := by
    rw [select_sky_background, if_neg (by norm_num), if_pos (by norm_num)]
  have h75 : select_sky_background 75 = high_sky_background := by
    rw [select_sky_background, if_neg (by norm_num), if_neg (by norm_num)]
  refine ⟨h25, ?_, h75, fun am m t => ⟨?_, ?_⟩⟩
  · rw [select_sky_background, if_neg (by norm_num), if_pos (by norm_num)]
  · rw [get_aperture_noise, h25]
  · rw [get_aperture_noise, h75]

/-- Claim C8 (confirmed): the noise estimator is a deterministic pure
function — in this embedding it is a function of its four arguments alone
(the source performs no I/O and touches no mutable state), so identical
arguments give identical results, and the omitted exposure time defaults
to 30 seconds. -/
theorem get_aperture_noise_deterministic (mo am m t : ℚ) :
    get_aperture_noise mo am m t = get_aperture_noise mo am m t ∧
    get_aperture_noise mo am m = get_aperture_noise mo am m 30 :=
  ⟨rfl, rfl⟩

/-- Claim C9 (confirmed): for every moon illumination, every magnitude,
every nonnegative mean cubed airmass and every positive exposure time the
estimator returns a strictly positive (real, hence finite) value: the
signal is strictly positive and the quadrature sum is at least the strictly
positive read-noise term. -/
theorem get_aperture_noise_pos (mo am m t : ℚ) (_ham : 0 ≤ am) (ht : 0 < t) :
    0 < get_aperture_noise mo am m t := by
  unfold get_aperture_noise noise_formula
  refine mul_pos (mul_pos (div_pos
    (total_noise_pos _ _ _ _ _ _ (aperture_size_pos m))
    (signal_pos _ _ _ ht)) ?_) (by norm_num)
  apply Real.sqrt_pos.mpr
  have h1 : (0 : ℝ) < (t : ℝ) := by exact_mod_cast ht
  have h2 : (0 : ℝ) < ((read_out_time : ℚ) : ℝ) := by
    rw [read_out_time]; norm_num
  positivity

/-- Witness for `get_aperture_noise_pos` at the example input of the spec
(moon 10, airmass 1.2, magnitude 12, exposure 30). -/
theorem get_aperture_noise_pos_witness :
    (0 : ℚ) ≤ 1.2 ∧ (0 : ℚ) < 30 ∧ 0 < get_aperture_noise 10 1.2 12 30 :=
  ⟨by norm_num, by norm_num,
   get_aperture_noise_pos 10 1.2 12 30 (by norm_num) (by norm_num)⟩

/-! ## Claims about the magnitude resolver -/

/-- Claim C2 is refuted: output is NOT redirected for the duration of the
name-resolution call — `custom_simbad.query_object` is issued outside any
`suppress_stdout` block, so on a concrete run the Simbad call appears in
the trace under the normal sink. -/
theorem stdout_suppression_counterexample :
    ¬ (∀ c ∈ (get_bp_mag_run simbad_vega gaia_ok "Vega" init_state).2.calls,
        c.sinkOf = Sink.devnull) := by decide

/-- Claim C2 as amended: only the catalog-query call runs under the discard
sink; the name-resolution call runs under the sink in effect at entry
(normal output), and the entry sink is restored when the resolver returns,
whether the body returned normally or raised (the oracles are arbitrary, so
both outcomes are covered). -/
theorem stdout_suppression_amended (sb : String → Except Unit String)
    (g : String → Except Unit (List ℚ)) (target : String) (s : RunState) :
    (get_bp_mag_run sb g target s).2.sink = s.sink ∧
    (∀ c ∈ (get_bp_mag_run sb g target init_state).2.calls,
      (c.isGaia = true → c.sinkOf = Sink.devnull) ∧
      (c.isGaia = false → c.sinkOf = Sink.normal)) := by
  constructor
  · cases h : pyContains target gaiaMarker with
    | true => rw [run_fast sb g target s h]
    | false =>
      cases hsb : sb target with
      | ok idsStr => rw [run_slow_ok sb g target idsStr s h hsb]
      | error e => rw [run_slow_err sb g target s h (by cases e; exact hsb)]
  · cases h : pyContains target gaiaMarker with
    | true =>
      rw [run_fast sb g target init_state h]
      intro c hc
      simp only [init_state, List.nil_append, List.mem_singleton] at hc
      subst hc
      exact ⟨fun _ => rfl, fun hfalse => by simp [NetCall.isGaia] at hfalse⟩
    | false =>
      cases hsb : sb target with
      | ok idsStr =>
        rw [run_slow_ok sb g target idsStr init_state h hsb]
        intro c hc
        simp only [init_state, List.nil_append, List.mem_cons,
          List.mem_singleton, List.not_mem_nil, or_false] at hc
        cases hc with
        | inl h1 =>
          subst h1
          exact ⟨fun htrue => by simp [NetCall.isGaia] at htrue, fun _ => rfl⟩
        | inr h2 =>
          subst h2
          exact ⟨fun _ => rfl, fun hfalse => by simp [NetCall.isGaia] at hfalse⟩
      | error e =>
        cases e
        rw [run_slow_err sb g target init_state h hsb]
        intro c hc
        simp only [init_state, List.nil_append, List.mem_singleton] at hc
        subst hc
        exact ⟨fun htrue => by simp [NetCall.isGaia] at htrue, fun _ => rfl⟩

/-- Witness for `stdout_suppression_amended` on a concrete run: the sink is
restored to normal, and the concrete Gaia call found in the trace was issued
under the discard sink while the concrete Simbad call was issued under the
normal sink. -/
theorem stdout_suppression_amended_witness :
    (get_bp_mag_run simbad_vega gaia_ok "Vega" init_state).2.sink = Sink.normal ∧
    (NetCall.gaia Sink.devnull
        (mk_query (some "2091696345237363072"))).sinkOf = Sink.devnull ∧
    (NetCall.simbad Sink.normal "Vega").sinkOf = Sink.normal :=
  ⟨(stdout_suppression_amended simbad_vega gaia_ok "Vega" init_state).1,
   ((stdout_suppression_amended simbad_vega gaia_ok "Vega" init_state).2
      (NetCall.gaia Sink.devnull (mk_query (some "2091696345237363072")))
      (by decide)).1 (by decide),
   ((stdout_suppression_amended simbad_vega gaia_ok "Vega" init_state).2
      (NetCall.simbad Sink.normal "Vega") (by decide)).2 (by decide)⟩

/-- Claim C3 is refuted on an identifier containing the marker twice: the
extraction `target.split("Gaia DR3")[1].strip()` yields only the piece between
the two occurrences (`"1"`), not the whole trimmed substring after the
marker (`"1 Gaia DR3 2"`), and the catalog query of the run is built from
the former. -/
theorem fast_path_extraction_counterexample :
    pyContains "Gaia DR3 1 Gaia DR3 2" gaiaMarker = true ∧
    extract_gaia_id "Gaia DR3 1 Gaia DR3 2" = "1" ∧
    spec_extract_gaia_id "Gaia DR3 1 Gaia DR3 2" = "1 Gaia DR3 2" ∧
    extract_gaia_id "Gaia DR3 1 Gaia DR3 2" ≠
      spec_extract_gaia_id "Gaia DR3 1 Gaia DR3 2" ∧
    (get_bp_mag_run simbad_vega gaia_ok "Gaia DR3 1 Gaia DR3 2" init_state).2.calls =
      [NetCall.gaia Sink.devnull (mk_query (some "1"))] := by decide

/-- Claim C3 as amended: for every identifier containing the marker the
resolver performs no name-resolution call — its only network call is the
catalog query, built from `split(marker)[1].strip()` (so the result does not
depend on the Simbad oracle at all); and whenever the marker occurs exactly
once (the split has exactly two pieces) that id is exactly the substring
after the marker, trimmed of surrounding whitespace. -/
theorem fast_path_extraction_amended (sb sb' : String → Except Unit String)
    (g : String → Except Unit (List ℚ)) (target : String)
    (h : pyContains target gaiaMarker = true) :
    (get_bp_mag_run sb g target init_state).2.calls =
      [NetCall.gaia Sink.devnull (mk_query (some (extract_gaia_id target)))] ∧
    get_bp_mag sb g target = get_bp_mag sb' g target ∧
    ((pySplit target gaiaMarker).length = 2 →
      extract_gaia_id target = spec_extract_gaia_id target) := by
  refine ⟨?_, ?_, ?_⟩
  · rw [run_fast sb g target init_state h]; rfl
  · rw [get_bp_mag, get_bp_mag, run_fast sb g target init_state h,
      run_fast sb' g target init_state h]
  · intro hlen
    obtain ⟨a, b, hab⟩ := List.length_eq_two.mp hlen
    rw [extract_gaia_id, spec_extract_gaia_id, hab]
    simp [String.intercalate, String.intercalate.go]

/-- Witness for `fast_path_extraction_amended` on the concrete identifier
`"Gaia DR3 2091696345237363072"` (marker occurring once), with a raising
Simbad oracle on one side to exhibit the independence. -/
theorem fast_path_extraction_amended_witness :
    pyContains "Gaia DR3 2091696345237363072" gaiaMarker = true ∧
    (pySplit "Gaia DR3 2091696345237363072" gaiaMarker).length = 2 ∧
    (get_bp_mag_run simbad_err gaia_ok "Gaia DR3 2091696345237363072"
        init_state).2.calls =
      [NetCall.gaia Sink.devnull
        (mk_query (some (extract_gaia_id "Gaia DR3 2091696345237363072")))] ∧
    get_bp_mag simbad_err gaia_ok "Gaia DR3 2091696345237363072" =
      get_bp_mag simbad_vega gaia_ok "Gaia DR3 2091696345237363072" ∧
    extract_gaia_id "Gaia DR3 2091696345237363072" =
      spec_extract_gaia_id "Gaia DR3 2091696345237363072" :=
  ⟨by decide, by decide,
   (fast_path_extraction_amended simbad_err simbad_vega gaia_ok
      "Gaia DR3 2091696345237363072" (by decide)).1,
   (fast_path_extraction_amended simbad_err simbad_vega gaia_ok
      "Gaia DR3 2091696345237363072" (by decide)).2.1,
   (fast_path_extraction_amended simbad_err simbad_vega gaia_ok
      "Gaia DR3 2091696345237363072" (by decide)).2.2 (by decide)⟩

/-- Facts about `gaia_step` shared by the error-handling claims. -/
theorem gaia_step_ok (r : Except Unit (List ℚ)) (m : ℚ)
    (h : gaia_step r = Except.ok m) :
    ∃ mags, r = Except.ok mags ∧ mags.head? = some m := by
  cases r with
  | error e => simp [gaia_step] at h
  | ok mags =>
    refine ⟨mags, rfl, ?_⟩
    rw [gaia_step] at h
    cases hm : mags.head? with
    | some m' => rw [hm] at h; exact (Except.ok.injEq _ _).mp h ▸ rfl
    | none => rw [hm] at h; exact absurd h (by simp)

/-- Claim C4 (confirmed): the resolver is total with a single absent-value
failure outcome — a catalog service that always raises gives `none`, a
catalog service that always returns zero rows gives `none`, a raising
name-resolution service gives `none` (when the target is not already a
catalog id), and any returned magnitude is row 0 of a successful catalog
answer.  No exception escapes: in the embedding every raised exception is an
`Except.error` of the `try` body, and `get_bp_mag` maps it to `none`. -/
theorem get_bp_mag_failure_collapse (sb : String → Except Unit String)
    (g : String → Except Unit (List ℚ)) (target : String) :
    ((∀ q, g q = Except.error ()) → get_bp_mag sb g target = none) ∧
    ((∀ q, g q = Except.ok []) → get_bp_mag sb g target = none) ∧
    (pyContains target gaiaMarker = false → sb target = Except.error () →
      get_bp_mag sb g target = none) ∧
    (∀ m : ℚ, get_bp_mag sb g target = some m →
      ∃ q mags, g q = Except.ok mags ∧ mags.head? = some m) := by
  have hshape : (∃ q, (get_bp_mag_run sb g target init_state).1 = gaia_step (g q)) ∨
      (get_bp_mag_run sb g target init_state).1 = Except.error () := by
    cases h : pyContains target gaiaMarker with
    | true =>
      exact Or.inl ⟨_, by rw [run_fast sb g target init_state h]⟩
    | false =>
      cases hsb : sb target with
      | ok idsStr =>
        exact Or.inl ⟨_, by rw [run_slow_ok sb g target idsStr init_state h hsb]⟩
      | error e =>
        cases e
        exact Or.inr (by rw [run_slow_err sb g target init_state h hsb])
  refine ⟨fun hg => ?_, fun hg => ?_, fun hpc hsb => ?_, fun m hm => ?_⟩
  · rw [get_bp_mag]
    rcases hshape with ⟨q, hq⟩ | herr
    · rw [hq, hg q]; rfl
    · rw [herr]
  · rw [get_bp_mag]
    rcases hshape with ⟨q, hq⟩ | herr
    · rw [hq, hg q]; rfl
    · rw [herr]
  · rw [get_bp_mag, run_slow_err sb g target init_state hpc hsb]
  · rw [get_bp_mag] at hm
    rcases hshape with ⟨q, hq⟩ | herr
    · rw [hq] at hm
      cases hstep : gaia_step (g q) with
      | error e => rw [hstep] at hm; exact absurd hm (by simp)
      | ok m' =>
        rw [hstep] at hm
        obtain ⟨mags, hmags, hhead⟩ := gaia_step_ok (g q) m' hstep
        exact ⟨q, mags, hmags, by simpa [hhead] using hm⟩
    · rw [herr] at hm; exact absurd hm (by simp)

/-- Witness for `get_bp_mag_failure_collapse`: the empty-result and
raising-catalog failure modes both give `none` on concrete runs, and the
successful concrete run returns row 0 of the catalog answer. -/
theorem get_bp_mag_failure_collapse_witness :
    get_bp_mag simbad_vega gaia_empty "Vega" = none ∧
    get_bp_mag simbad_vega gaia_err "Vega" = none ∧
    get_bp_mag simbad_err gaia_ok "Vega" = none :=
  ⟨(get_bp_mag_failure_collapse simbad_vega gaia_empty "Vega").2.1 (fun _ => rfl),
   (get_bp_mag_failure_collapse simbad_vega gaia_err "Vega").1 (fun _ => rfl),
   (get_bp_mag_failure_collapse simbad_err gaia_ok "Vega").2.2.1
     (by decide) rfl⟩

/-- Claim C6 (confirmed under a modelling assumption on the external
catalog service): when the target lacks the marker, the name-resolution
answer parses to an alternate-identifier list with no marker entry, and the
catalog service answers the resulting `source_id = None` query with an
exception or with zero rows (the loop leaves `gaia_id = None`, and the code
still submits that malformed query — the service cannot match a row for
it), the resolver returns `none`. -/
theorem no_marker_entry_absent (sb : String → Except Unit String)
    (g : String → Except Unit (List ℚ)) (target idsStr : String)
    (hm : pyContains target gaiaMarker = false)
    (hsb : sb target = Except.ok idsStr)
    (hids : ∀ id ∈ parse_ids idsStr, pyContains id gaiaMarker = false)
    (hg : ∀ mags, g (mk_query none) = Except.ok mags → mags = []) :
    get_bp_mag sb g target = none := by
  have hfind : find_gaia_id (parse_ids idsStr) = none := by
    rw [find_gaia_id, List.find?_eq_none.mpr]
    intro id hid
    rw [hids id hid]
    simp
  rw [get_bp_mag, run_slow_ok sb g target idsStr init_state hm hsb, hfind]
  cases hq : g (mk_query none) with
  | error e => rw [gaia_step]
  | ok mags => rw [gaia_step, hg mags hq]; rfl

/-- Witness for `no_marker_entry_absent` on a concrete run whose `ids`
column holds only non-Gaia identifiers and whose catalog service raises on
the malformed query. -/
theorem no_marker_entry_absent_witness :
    pyContains "Vega" gaiaMarker = false ∧
    simbad_nomatch "Vega" = Except.ok "    ids    |HD 172167|HR 7001" ∧
    get_bp_mag simbad_nomatch gaia_err "Vega" = none :=
  ⟨by decide, rfl,
   no_marker_entry_absent simbad_nomatch gaia_err "Vega"
     "    ids    |HD 172167|HR 7001" (by decide) rfl (by decide)
     (fun mags h => by simp [gaia_err] at h)⟩

/-! ## Claims about the image offset tool -/

/-- A sample filesystem holding one 2×2 FITS image at the input path. -/
def fs_sample : String → Option FitsFile := fun p =>
  if p = input_path then
    some { data := [[1, 2], [3, 4]], header := [("KEY", "VAL")] }
  else none

/-- The filesystem `const_add.py` produces from `fs_sample`. -/
def fs_sample_out : String → Option FitsFile := fun p =>
  if p = output_path then
    some { data := add_const 100 [[1, 2], [3, 4]], header := [("KEY", "VAL")] }
  else fs_sample p

/-- Claim C7 (confirmed): when the input file holds array `A` and header
`H`, the script succeeds, the destination is the literal sibling path
`/Users/nagro/Documents/const_added.fits`, and reading the destination back
yields `A` with 100 added to every element and `H` unchanged — whatever file
was there before (the write overwrites unconditionally). -/
theorem const_add_roundtrip (fs : String → Option FitsFile)
    (A : List (List ℚ)) (H : List (String × String))
    (h : fs input_path = some { data := A, header := H }) :
    output_path = "/Users/nagro/Documents/const_added.fits" ∧
    ∃ fs2, const_add fs = Except.ok fs2 ∧
      fs2 output_path = some { data := add_const 100 A, header := H } := by
  refine ⟨by decide, ?_⟩
  rw [const_add, h]
  exact ⟨_, rfl, by simp⟩

/-- Witness for `const_add_roundtrip` on the sample filesystem. -/
theorem const_add_roundtrip_witness :
    fs_sample input_path =
      some { data := [[1, 2], [3, 4]], header := [("KEY", "VAL")] } ∧
    output_path = "/Users/nagro/Documents/const_added.fits" ∧
    ∃ fs2, const_add fs_sample = Except.ok fs2 ∧
      fs2 output_path =
        some { data := add_const 100 [[1, 2], [3, 4]], header := [("KEY", "VAL")] } :=
  ⟨rfl,
   (const_add_roundtrip fs_sample [[1, 2], [3, 4]] [("KEY", "VAL")] rfl).1,
   (const_add_roundtrip fs_sample [[1, 2], [3, 4]] [("KEY", "VAL")] rfl).2⟩

/-- Claim C10 (confirmed): the script never touches the input file — when
it succeeds, the produced filesystem agrees with the original everywhere
except at the output path; in particular the file at the input path is
unchanged (the input and output paths differ). -/
theorem const_add_input_untouched (fs fs2 : String → Option FitsFile)
    (h : const_add fs = Except.ok fs2) :
    fs2 input_path = fs input_path ∧
    ∀ p, p ≠ output_path → fs2 p = fs p := by
  rw [const_add] at h
  cases hin : fs input_path with
  | none => rw [hin] at h; exact absurd h (by simp)
  | some hdu0 =>
    rw [hin] at h
    have hfs2 := (Except.ok.injEq _ _).mp h
    constructor
    · rw [← hfs2]
      simp [show input_path ≠ output_path by decide, hin]
    · intro p hp
      rw [← hfs2]
      simp [hp]

/-- Witness for `const_add_input_untouched`: on the sample filesystem the
input file reads back unchanged after the run, and an unrelated path is
also untouched. -/
theorem const_add_input_untouched_witness :
    const_add fs_sample = Except.ok fs_sample_out ∧
    fs_sample_out input_path = fs_sample input_path ∧
    fs_sample_out "/tmp/other.fits" = fs_sample "/tmp/other.fits" :=
  ⟨rfl,
   (const_add_input_untouched fs_sample fs_sample_out rfl).1,
   (const_add_input_untouched fs_sample fs_sample_out rfl).2
     "/tmp/other.fits" (by decide)⟩

end Visibility
